import Mathlib

/-
  Shallow embedding of src/L9733/doruirimescu.h, the driver interface for the
  L9733 octal-output integrated circuit.

  The header packs each configuration as eight one-bit fields of a struct
  (channel 1 first in declaration order, hence the least significant bit of
  the in-memory byte), declares a three-valued fault-status enum, an
  eight-entry fault report struct, two byte-level macros
  (CLEAR_BITFIELD_BYTE, SET_BITFIELD_BYTE) and three write prototypes.
  One-bit fields hold 0 or 1 and are embedded as Bool; the numeric reading
  of a flag is bitVal.
-/

set_option maxRecDepth 8000

/-- Numeric reading of a one-bit flag: a `uint8_t x : 1` field holds 0 or 1. -/
def bitVal (b : Bool) : Nat := cond b 1 0

/-- `output_status_t` (header lines 35-46): eight one-bit output-enable flags,
`out_1` .. `out_8` in declaration order. -/
structure output_status_t where
  out_1 : Bool
  out_2 : Bool
  out_3 : Bool
  out_4 : Bool
  out_5 : Bool
  out_6 : Bool
  out_7 : Bool
  out_8 : Bool
  deriving DecidableEq

/-- `diagnosis_mode_t` (header lines 53-66): eight one-bit latch-mode flags. -/
structure diagnosis_mode_t where
  diagnosis_1 : Bool
  diagnosis_2 : Bool
  diagnosis_3 : Bool
  diagnosis_4 : Bool
  diagnosis_5 : Bool
  diagnosis_6 : Bool
  diagnosis_7 : Bool
  diagnosis_8 : Bool
  deriving DecidableEq

/-- `overcurrent_protection_t` (header lines 71-81): eight one-bit
overcurrent-protection flags. -/
structure overcurrent_protection_t where
  ilim_1 : Bool
  ilim_2 : Bool
  ilim_3 : Bool
  ilim_4 : Bool
  ilim_5 : Bool
  ilim_6 : Bool
  ilim_7 : Bool
  ilim_8 : Bool
  deriving DecidableEq

/-- The packed one-byte in-memory representation of `output_status_t`:
channel 1 is the least significant bit, consistent with declaration order. -/
def output_status_toByte (s : output_status_t) : Nat :=
  bitVal s.out_1 + 2 * bitVal s.out_2 + 4 * bitVal s.out_3 + 8 * bitVal s.out_4 +
  16 * bitVal s.out_5 + 32 * bitVal s.out_6 + 64 * bitVal s.out_7 + 128 * bitVal s.out_8

/-- Reinterpret a byte value as an `output_status_t` (bit `n-1` is channel `n`). -/
def output_status_fromByte (b : Nat) : output_status_t :=
  ⟨b.testBit 0, b.testBit 1, b.testBit 2, b.testBit 3,
   b.testBit 4, b.testBit 5, b.testBit 6, b.testBit 7⟩

/-- The packed one-byte in-memory representation of `diagnosis_mode_t`. -/
def diagnosis_mode_toByte (s : diagnosis_mode_t) : Nat :=
  bitVal s.diagnosis_1 + 2 * bitVal s.diagnosis_2 + 4 * bitVal s.diagnosis_3 +
  8 * bitVal s.diagnosis_4 + 16 * bitVal s.diagnosis_5 + 32 * bitVal s.diagnosis_6 +
  64 * bitVal s.diagnosis_7 + 128 * bitVal s.diagnosis_8

/-- Reinterpret a byte value as a `diagnosis_mode_t`. -/
def diagnosis_mode_fromByte (b : Nat) : diagnosis_mode_t :=
  ⟨b.testBit 0, b.testBit 1, b.testBit 2, b.testBit 3,
   b.testBit 4, b.testBit 5, b.testBit 6, b.testBit 7⟩

/-- The packed one-byte in-memory representation of `overcurrent_protection_t`. -/
def overcurrent_protection_toByte (s : overcurrent_protection_t) : Nat :=
  bitVal s.ilim_1 + 2 * bitVal s.ilim_2 + 4 * bitVal s.ilim_3 + 8 * bitVal s.ilim_4 +
  16 * bitVal s.ilim_5 + 32 * bitVal s.ilim_6 + 64 * bitVal s.ilim_7 + 128 * bitVal s.ilim_8

/-- Reinterpret a byte value as an `overcurrent_protection_t`. -/
def overcurrent_protection_fromByte (b : Nat) : overcurrent_protection_t :=
  ⟨b.testBit 0, b.testBit 1, b.testBit 2, b.testBit 3,
   b.testBit 4, b.testBit 5, b.testBit 6, b.testBit 7⟩

/-- `CLEAR_BITFIELD_BYTE(s)` (header line 23) on an `output_status_t`:
`*((uint8_t*)&s) = 0` overwrites the one-byte object representation with 0. -/
def CLEAR_BITFIELD_BYTE_output_status (_s : output_status_t) : output_status_t :=
  output_status_fromByte 0

/-- `SET_BITFIELD_BYTE(s)` (header line 29) on an `output_status_t`:
`*((uint8_t*)&s) = 0xFF` overwrites the one-byte object representation with 0xFF. -/
def SET_BITFIELD_BYTE_output_status (_s : output_status_t) : output_status_t :=
  output_status_fromByte 0xFF

/-- `CLEAR_BITFIELD_BYTE(s)` on a `diagnosis_mode_t`. -/
def CLEAR_BITFIELD_BYTE_diagnosis_mode (_s : diagnosis_mode_t) : diagnosis_mode_t :=
  diagnosis_mode_fromByte 0

/-- `SET_BITFIELD_BYTE(s)` on a `diagnosis_mode_t`. -/
def SET_BITFIELD_BYTE_diagnosis_mode (_s : diagnosis_mode_t) : diagnosis_mode_t :=
  diagnosis_mode_fromByte 0xFF

/-- `CLEAR_BITFIELD_BYTE(s)` on an `overcurrent_protection_t`. -/
def CLEAR_BITFIELD_BYTE_overcurrent_protection
    (_s : overcurrent_protection_t) : overcurrent_protection_t :=
  overcurrent_protection_fromByte 0

/-- `SET_BITFIELD_BYTE(s)` on an `overcurrent_protection_t`. -/
def SET_BITFIELD_BYTE_overcurrent_protection
    (_s : overcurrent_protection_t) : overcurrent_protection_t :=
  overcurrent_protection_fromByte 0xFF

/-- Read channel flag `n+1` of an `output_status_t` (index 0 is `out_1`). -/
def output_status_getFlag (s : output_status_t) : Fin 8 → Bool
  | 0 => s.out_1
  | 1 => s.out_2
  | 2 => s.out_3
  | 3 => s.out_4
  | 4 => s.out_5
  | 5 => s.out_6
  | 6 => s.out_7
  | 7 => s.out_8

/-- Write channel flag `n+1` of an `output_status_t`. -/
def output_status_setFlag (s : output_status_t) (n : Fin 8) (b : Bool) : output_status_t :=
  match n with
  | 0 => { s with out_1 := b }
  | 1 => { s with out_2 := b }
  | 2 => { s with out_3 := b }
  | 3 => { s with out_4 := b }
  | 4 => { s with out_5 := b }
  | 5 => { s with out_6 := b }
  | 6 => { s with out_7 := b }
  | 7 => { s with out_8 := b }

/-- Read channel flag `n+1` of a `diagnosis_mode_t`. -/
def diagnosis_mode_getFlag (s : diagnosis_mode_t) : Fin 8 → Bool
  | 0 => s.diagnosis_1
  | 1 => s.diagnosis_2
  | 2 => s.diagnosis_3
  | 3 => s.diagnosis_4
  | 4 => s.diagnosis_5
  | 5 => s.diagnosis_6
  | 6 => s.diagnosis_7
  | 7 => s.diagnosis_8

/-- Write channel flag `n+1` of a `diagnosis_mode_t`. -/
def diagnosis_mode_setFlag (s : diagnosis_mode_t) (n : Fin 8) (b : Bool) : diagnosis_mode_t :=
  match n with
  | 0 => { s with diagnosis_1 := b }
  | 1 => { s with diagnosis_2 := b }
  | 2 => { s with diagnosis_3 := b }
  | 3 => { s with diagnosis_4 := b }
  | 4 => { s with diagnosis_5 := b }
  | 5 => { s with diagnosis_6 := b }
  | 6 => { s with diagnosis_7 := b }
  | 7 => { s with diagnosis_8 := b }

/-- Read channel flag `n+1` of an `overcurrent_protection_t`. -/
def overcurrent_protection_getFlag (s : overcurrent_protection_t) : Fin 8 → Bool
  | 0 => s.ilim_1
  | 1 => s.ilim_2
  | 2 => s.ilim_3
  | 3 => s.ilim_4
  | 4 => s.ilim_5
  | 5 => s.ilim_6
  | 6 => s.ilim_7
  | 7 => s.ilim_8

/-- Write channel flag `n+1` of an `overcurrent_protection_t`. -/
def overcurrent_protection_setFlag (s : overcurrent_protection_t) (n : Fin 8)
    (b : Bool) : overcurrent_protection_t :=
  match n with
  | 0 => { s with ilim_1 := b }
  | 1 => { s with ilim_2 := b }
  | 2 => { s with ilim_3 := b }
  | 3 => { s with ilim_4 := b }
  | 4 => { s with ilim_5 := b }
  | 5 => { s with ilim_6 := b }
  | 6 => { s with ilim_7 := b }
  | 7 => { s with ilim_8 := b }

/-- `fault_status_e` (header lines 87-92): per-channel fault status. -/
inductive fault_status_e where
  | NO_FAULT_PRESENT
  | OPEN_LOAD
  | SHORT_CIRCUIT_OVERCURRENT
  deriving DecidableEq

/-- The C integer value of each enumerator: the enum lists them with no
explicit values, so the first gets 0 and each next one more. -/
def fault_status_value : fault_status_e → Nat
  | .NO_FAULT_PRESENT => 0
  | .OPEN_LOAD => 1
  | .SHORT_CIRCUIT_OVERCURRENT => 2

/-- `fault_report_t` (header lines 98-108): one `fault_status_e` per channel. -/
structure fault_report_t where
  out_1 : fault_status_e
  out_2 : fault_status_e
  out_3 : fault_status_e
  out_4 : fault_status_e
  out_5 : fault_status_e
  out_6 : fault_status_e
  out_7 : fault_status_e
  out_8 : fault_status_e
  deriving DecidableEq

/-- The entries of a fault report, in channel order 1..8. -/
def fault_report_entries (r : fault_report_t) : List fault_status_e :=
  [r.out_1, r.out_2, r.out_3, r.out_4, r.out_5, r.out_6, r.out_7, r.out_8]

/-- The C integer values stored in a fault report, in channel order. -/
def fault_report_rep (r : fault_report_t) : List Nat :=
  (fault_report_entries r).map fault_status_value

/-- Read the entry for channel `n+1` of a fault report. -/
def fault_report_getEntry (r : fault_report_t) : Fin 8 → fault_status_e
  | 0 => r.out_1
  | 1 => r.out_2
  | 2 => r.out_3
  | 3 => r.out_4
  | 4 => r.out_5
  | 5 => r.out_6
  | 6 => r.out_7
  | 7 => r.out_8

/-- Write the entry for channel `n+1` of a fault report. -/
def fault_report_setEntry (r : fault_report_t) (n : Fin 8)
    (v : fault_status_e) : fault_report_t :=
  match n with
  | 0 => { r with out_1 := v }
  | 1 => { r with out_2 := v }
  | 2 => { r with out_3 := v }
  | 3 => { r with out_4 := v }
  | 4 => { r with out_5 := v }
  | 5 => { r with out_6 := v }
  | 6 => { r with out_7 := v }
  | 7 => { r with out_8 := v }

/-- A pointer parameter of a C declaration, keeping the one qualifier that
matters here: whether the pointed-to object is const. -/
structure CPointerParam where
  pointeeConst : Bool
  deriving DecidableEq

/-- The shape of one of the header's three write prototypes: the return type
(reduced to whether it is `void`) and the two pointer parameters. -/
structure CWriteDecl where
  returnsVoid : Bool
  in_ptConfig : CPointerParam
  out_ptStatus : CPointerParam
  deriving DecidableEq

/-- Header line 110:
`void writeOutputStatusConfiguration(const output_status_t const* in_ptConfig, fault_report_t const* out_ptStatus);`
Both parameters are pointers whose pointee is const (in C the qualifiers before
the `*` bind to the pointee; the duplicated const on the first parameter
collapses to one). -/
def writeOutputStatusConfiguration_decl : CWriteDecl :=
  { returnsVoid := true
    in_ptConfig := { pointeeConst := true }
    out_ptStatus := { pointeeConst := true } }

/-- Header line 118:
`void writeDianosticModeConfiguration(const diagnosis_mode_t const* in_ptConfig, fault_report_t const* out_ptStatus);` -/
def writeDianosticModeConfiguration_decl : CWriteDecl :=
  { returnsVoid := true
    in_ptConfig := { pointeeConst := true }
    out_ptStatus := { pointeeConst := true } }

/-- Header line 132:
`void writeOvercurrentProtectionConfiguration(const overcurrent_protection_t const* in_ptConfig, fault_report_t const* out_ptStatus);` -/
def writeOvercurrentProtectionConfiguration_decl : CWriteDecl :=
  { returnsVoid := true
    in_ptConfig := { pointeeConst := true }
    out_ptStatus := { pointeeConst := true } }

/-- A conforming C implementation may store through a pointer parameter only
when the pointee is not const. -/
def outParamWritable (d : CWriteDecl) : Bool :=
  !d.out_ptStatus.pointeeConst

/-- Modelled from the spec: the body of `writeOutputStatusConfiguration` is not
in src/ (the header only declares it). Per the spec, the call programs the
output-status configuration onto the device and yields the fault status
snapshot taken by the device at the time of this write; the snapshot is an
input coming from the device, and the call surfaces it unchanged as the
produced fault report. -/
def writeOutputStatusConfiguration (_in_ptConfig : output_status_t)
    (deviceSnapshot : fault_report_t) : fault_report_t :=
  deviceSnapshot

/-- Modelled from the spec: the body of `writeDianosticModeConfiguration` is
not in src/. Per the spec, the call programs the diagnosis-mode configuration
and surfaces the device's fault snapshot unchanged. -/
def writeDianosticModeConfiguration (_in_ptConfig : diagnosis_mode_t)
    (deviceSnapshot : fault_report_t) : fault_report_t :=
  deviceSnapshot

/-- Modelled from the spec: the body of `writeOvercurrentProtectionConfiguration`
is not in src/. Per the spec, the call programs the overcurrent-protection
configuration and surfaces the device's fault snapshot unchanged. -/
def writeOvercurrentProtectionConfiguration (_in_ptConfig : overcurrent_protection_t)
    (deviceSnapshot : fault_report_t) : fault_report_t :=
  deviceSnapshot

/-- A concrete all-channels-off output status used in witnesses. -/
def osAllOff : output_status_t :=
  ⟨false, false, false, false, false, false, false, false⟩

/-- A concrete all-channels-no-latch diagnosis mode used in witnesses. -/
def dmAllOff : diagnosis_mode_t :=
  ⟨false, false, false, false, false, false, false, false⟩

/-- A concrete all-channels-unprotected overcurrent configuration used in
witnesses. -/
def ocAllOff : overcurrent_protection_t :=
  ⟨false, false, false, false, false, false, false, false⟩

/-- A concrete fault report with channel 2 open-load and the rest no-fault,
the spec's round-trip scenario value, used in witnesses. -/
def frChannel2OpenLoad : fault_report_t :=
  ⟨.NO_FAULT_PRESENT, .OPEN_LOAD, .NO_FAULT_PRESENT, .NO_FAULT_PRESENT,
   .NO_FAULT_PRESENT, .NO_FAULT_PRESENT, .NO_FAULT_PRESENT, .NO_FAULT_PRESENT⟩

/-- `output_status_t` is just its eight Bool fields. -/
def output_status_equivProd :
    output_status_t ≃ (Bool × Bool × Bool × Bool × Bool × Bool × Bool × Bool) where
  toFun s := (s.out_1, s.out_2, s.out_3, s.out_4, s.out_5, s.out_6, s.out_7, s.out_8)
  invFun p := ⟨p.1, p.2.1, p.2.2.1, p.2.2.2.1, p.2.2.2.2.1, p.2.2.2.2.2.1,
    p.2.2.2.2.2.2.1, p.2.2.2.2.2.2.2⟩
  left_inv s := rfl
  right_inv p := rfl

instance : Fintype output_status_t := Fintype.ofEquiv _ output_status_equivProd.symm

/-- `diagnosis_mode_t` is just its eight Bool fields. -/
def diagnosis_mode_equivProd :
    diagnosis_mode_t ≃ (Bool × Bool × Bool × Bool × Bool × Bool × Bool × Bool) where
  toFun s := (s.diagnosis_1, s.diagnosis_2, s.diagnosis_3, s.diagnosis_4,
    s.diagnosis_5, s.diagnosis_6, s.diagnosis_7, s.diagnosis_8)
  invFun p := ⟨p.1, p.2.1, p.2.2.1, p.2.2.2.1, p.2.2.2.2.1, p.2.2.2.2.2.1,
    p.2.2.2.2.2.2.1, p.2.2.2.2.2.2.2⟩
  left_inv s := rfl
  right_inv p := rfl

instance : Fintype diagnosis_mode_t := Fintype.ofEquiv _ diagnosis_mode_equivProd.symm

/-- `overcurrent_protection_t` is just its eight Bool fields. -/
def overcurrent_protection_equivProd :
    overcurrent_protection_t ≃ (Bool × Bool × Bool × Bool × Bool × Bool × Bool × Bool) where
  toFun s := (s.ilim_1, s.ilim_2, s.ilim_3, s.ilim_4, s.ilim_5, s.ilim_6, s.ilim_7, s.ilim_8)
  invFun p := ⟨p.1, p.2.1, p.2.2.1, p.2.2.2.1, p.2.2.2.2.1, p.2.2.2.2.2.1,
    p.2.2.2.2.2.2.1, p.2.2.2.2.2.2.2⟩
  left_inv s := rfl
  right_inv p := rfl

instance : Fintype overcurrent_protection_t :=
  Fintype.ofEquiv _ overcurrent_protection_equivProd.symm

instance : Fintype fault_status_e where
  elems := {.NO_FAULT_PRESENT, .OPEN_LOAD, .SHORT_CIRCUIT_OVERCURRENT}
  complete := by intro x; cases x <;> decide

/-- `fault_report_t` is just its eight `fault_status_e` fields. -/
def fault_report_equivProd :
    fault_report_t ≃ (fault_status_e × fault_status_e × fault_status_e × fault_status_e ×
      fault_status_e × fault_status_e × fault_status_e × fault_status_e) where
  toFun r := (r.out_1, r.out_2, r.out_3, r.out_4, r.out_5, r.out_6, r.out_7, r.out_8)
  invFun p := ⟨p.1, p.2.1, p.2.2.1, p.2.2.2.1, p.2.2.2.2.1, p.2.2.2.2.2.1,
    p.2.2.2.2.2.2.1, p.2.2.2.2.2.2.2⟩
  left_inv r := rfl
  right_inv p := rfl

instance : Fintype fault_report_t := Fintype.ofEquiv _ fault_report_equivProd.symm

/-- C1: the claim says each write operation populates the caller-supplied
fault report through its output parameter. The header instead declares that
parameter as `fault_report_t const*` — a pointer to const — on all three
prototypes, so under the declared interface no conforming implementation can
store the fault snapshot through it. This theorem evaluates the declared
signatures: the out parameter is not writable for any of the three
operations. -/
theorem C1_out_param_declared_const :
    outParamWritable writeOutputStatusConfiguration_decl = false ∧
    outParamWritable writeDianosticModeConfiguration_decl = false ∧
    outParamWritable writeOvercurrentProtectionConfiguration_decl = false :=
  ⟨rfl, rfl, rfl⟩

/-- C2: CLEAR_BITFIELD_BYTE applied to any value of any of the three
configuration bitfield types yields in-memory byte 0, and all 8 channel flags
read 0 afterward, independently of the initial value. -/
theorem C2_clear_bitfield_yields_zero :
    (∀ s : output_status_t,
      output_status_toByte (CLEAR_BITFIELD_BYTE_output_status s) = 0 ∧
      ∀ n : Fin 8, output_status_getFlag (CLEAR_BITFIELD_BYTE_output_status s) n = false) ∧
    (∀ s : diagnosis_mode_t,
      diagnosis_mode_toByte (CLEAR_BITFIELD_BYTE_diagnosis_mode s) = 0 ∧
      ∀ n : Fin 8, diagnosis_mode_getFlag (CLEAR_BITFIELD_BYTE_diagnosis_mode s) n = false) ∧
    (∀ s : overcurrent_protection_t,
      overcurrent_protection_toByte (CLEAR_BITFIELD_BYTE_overcurrent_protection s) = 0 ∧
      ∀ n : Fin 8,
        overcurrent_protection_getFlag (CLEAR_BITFIELD_BYTE_overcurrent_protection s) n = false) :=
  ⟨fun _ => ⟨rfl, by intro n; fin_cases n <;> rfl⟩,
   fun _ => ⟨rfl, by intro n; fin_cases n <;> rfl⟩,
   fun _ => ⟨rfl, by intro n; fin_cases n <;> rfl⟩⟩

/-- C3: SET_BITFIELD_BYTE applied to any value of any of the three
configuration bitfield types yields in-memory byte 0xFF, and all 8 channel
flags read 1 afterward, independently of the initial value. -/
theorem C3_set_bitfield_yields_ff :
    (∀ s : output_status_t,
      output_status_toByte (SET_BITFIELD_BYTE_output_status s) = 0xFF ∧
      ∀ n : Fin 8, output_status_getFlag (SET_BITFIELD_BYTE_output_status s) n = true) ∧
    (∀ s : diagnosis_mode_t,
      diagnosis_mode_toByte (SET_BITFIELD_BYTE_diagnosis_mode s) = 0xFF ∧
      ∀ n : Fin 8, diagnosis_mode_getFlag (SET_BITFIELD_BYTE_diagnosis_mode s) n = true) ∧
    (∀ s : overcurrent_protection_t,
      overcurrent_protection_toByte (SET_BITFIELD_BYTE_overcurrent_protection s) = 0xFF ∧
      ∀ n : Fin 8,
        overcurrent_protection_getFlag (SET_BITFIELD_BYTE_overcurrent_protection s) n = true) :=
  ⟨fun _ => ⟨rfl, by intro n; fin_cases n <;> rfl⟩,
   fun _ => ⟨rfl, by intro n; fin_cases n <;> rfl⟩,
   fun _ => ⟨rfl, by intro n; fin_cases n <;> rfl⟩⟩

/-- C4: for every channel index and every value of any configuration bitfield,
setting the channel's flag to 1 and re-reading the packed in-memory byte shows
that bit set at position index (channel n sits at bit n-1, channel 1 being the
least significant bit); and the scenario value: channels 1,3,5,7 enabled packs
to 0b01010101. -/
theorem C4_flag_bit_position :
    (∀ (s : output_status_t) (n : Fin 8),
      Nat.testBit (output_status_toByte (output_status_setFlag s n true)) n.val = true) ∧
    (∀ (s : diagnosis_mode_t) (n : Fin 8),
      Nat.testBit (diagnosis_mode_toByte (diagnosis_mode_setFlag s n true)) n.val = true) ∧
    (∀ (s : overcurrent_protection_t) (n : Fin 8),
      Nat.testBit
        (overcurrent_protection_toByte (overcurrent_protection_setFlag s n true)) n.val = true) ∧
    output_status_toByte ⟨true, false, true, false, true, false, true, false⟩ = 0b01010101 := by
  refine ⟨?_, ?_, ?_, rfl⟩ <;> decide

/-- C5: every fault report has exactly 8 entries, in channel order 1..8, and
each entry is one of the three fault-status variants, which are mutually
distinct; no entry is outside the enum. -/
theorem C5_fault_report_shape :
    (∀ r : fault_report_t,
      (fault_report_entries r).length = 8 ∧
      ∀ e ∈ fault_report_entries r,
        e = fault_status_e.NO_FAULT_PRESENT ∨ e = fault_status_e.OPEN_LOAD ∨
          e = fault_status_e.SHORT_CIRCUIT_OVERCURRENT) ∧
    (fault_status_e.NO_FAULT_PRESENT ≠ fault_status_e.OPEN_LOAD ∧
     fault_status_e.NO_FAULT_PRESENT ≠ fault_status_e.SHORT_CIRCUIT_OVERCURRENT ∧
     fault_status_e.OPEN_LOAD ≠ fault_status_e.SHORT_CIRCUIT_OVERCURRENT) := by
  refine ⟨fun r => ⟨rfl, fun e _ => ?_⟩, by decide⟩
  cases e
  · exact Or.inl rfl
  · exact Or.inr (Or.inl rfl)
  · exact Or.inr (Or.inr rfl)

/-- C5 witness: the spec's scenario report (channel 2 open-load) has 8 entries
and its channel-2 entry is one of the three variants. -/
theorem C5_fault_report_shape_witness :
    (fault_report_entries frChannel2OpenLoad).length = 8 ∧
    (fault_status_e.OPEN_LOAD = fault_status_e.NO_FAULT_PRESENT ∨
     fault_status_e.OPEN_LOAD = fault_status_e.OPEN_LOAD ∨
     fault_status_e.OPEN_LOAD = fault_status_e.SHORT_CIRCUIT_OVERCURRENT) :=
  ⟨(C5_fault_report_shape.1 frChannel2OpenLoad).1,
   (C5_fault_report_shape.1 frChannel2OpenLoad).2 fault_status_e.OPEN_LOAD (by decide)⟩

/-- C6: channels do not alias. Writing channel n of any configuration bitfield
sets that flag to the written value and leaves the other seven flags
unchanged; likewise writing one entry of a fault report leaves the other
seven entries unchanged. -/
theorem C6_no_channel_aliasing :
    (∀ (s : output_status_t) (n m : Fin 8) (b : Bool), m ≠ n →
      output_status_getFlag (output_status_setFlag s n b) m = output_status_getFlag s m) ∧
    (∀ (s : output_status_t) (n : Fin 8) (b : Bool),
      output_status_getFlag (output_status_setFlag s n b) n = b) ∧
    (∀ (s : diagnosis_mode_t) (n m : Fin 8) (b : Bool), m ≠ n →
      diagnosis_mode_getFlag (diagnosis_mode_setFlag s n b) m = diagnosis_mode_getFlag s m) ∧
    (∀ (s : diagnosis_mode_t) (n : Fin 8) (b : Bool),
      diagnosis_mode_getFlag (diagnosis_mode_setFlag s n b) n = b) ∧
    (∀ (s : overcurrent_protection_t) (n m : Fin 8) (b : Bool), m ≠ n →
      overcurrent_protection_getFlag (overcurrent_protection_setFlag s n b) m =
        overcurrent_protection_getFlag s m) ∧
    (∀ (s : overcurrent_protection_t) (n : Fin 8) (b : Bool),
      overcurrent_protection_getFlag (overcurrent_protection_setFlag s n b) n = b) ∧
    (∀ (r : fault_report_t) (n m : Fin 8) (v : fault_status_e), m ≠ n →
      fault_report_getEntry (fault_report_setEntry r n v) m = fault_report_getEntry r m) ∧
    (∀ (r : fault_report_t) (n : Fin 8) (v : fault_status_e),
      fault_report_getEntry (fault_report_setEntry r n v) n = v) := by
  refine ⟨?_, ?_, ?_, ?_, ?_, ?_, ?_, ?_⟩
  · intro s n m b h; fin_cases n <;> fin_cases m <;> first | rfl | exact absurd rfl h
  · intro s n b; fin_cases n <;> rfl
  · intro s n m b h; fin_cases n <;> fin_cases m <;> first | rfl | exact absurd rfl h
  · intro s n b; fin_cases n <;> rfl
  · intro s n m b h; fin_cases n <;> fin_cases m <;> first | rfl | exact absurd rfl h
  · intro s n b; fin_cases n <;> rfl
  · intro r n m v h; fin_cases n <;> fin_cases m <;> first | rfl | exact absurd rfl h
  · intro r n v; fin_cases n <;> rfl

/-- C6 witness: concrete non-aliasing instances, one per data type, obtained
by applying the frame theorem at explicit channels and values. -/
theorem C6_no_channel_aliasing_witness :
    output_status_getFlag (output_status_setFlag osAllOff 0 true) 1 =
      output_status_getFlag osAllOff 1 ∧
    output_status_getFlag (output_status_setFlag osAllOff 0 true) 0 = true ∧
    diagnosis_mode_getFlag (diagnosis_mode_setFlag dmAllOff 2 true) 5 =
      diagnosis_mode_getFlag dmAllOff 5 ∧
    diagnosis_mode_getFlag (diagnosis_mode_setFlag dmAllOff 2 true) 2 = true ∧
    overcurrent_protection_getFlag (overcurrent_protection_setFlag ocAllOff 7 true) 3 =
      overcurrent_protection_getFlag ocAllOff 3 ∧
    overcurrent_protection_getFlag (overcurrent_protection_setFlag ocAllOff 7 true) 7 = true ∧
    fault_report_getEntry
      (fault_report_setEntry frChannel2OpenLoad 4 fault_status_e.SHORT_CIRCUIT_OVERCURRENT) 1 =
      fault_report_getEntry frChannel2OpenLoad 1 ∧
    fault_report_getEntry
      (fault_report_setEntry frChannel2OpenLoad 4 fault_status_e.SHORT_CIRCUIT_OVERCURRENT) 4 =
      fault_status_e.SHORT_CIRCUIT_OVERCURRENT :=
  ⟨C6_no_channel_aliasing.1 osAllOff 0 1 true (by decide),
   C6_no_channel_aliasing.2.1 osAllOff 0 true,
   C6_no_channel_aliasing.2.2.1 dmAllOff 2 5 true (by decide),
   C6_no_channel_aliasing.2.2.2.1 dmAllOff 2 true,
   C6_no_channel_aliasing.2.2.2.2.1 ocAllOff 7 3 true (by decide),
   C6_no_channel_aliasing.2.2.2.2.2.1 ocAllOff 7 true,
   C6_no_channel_aliasing.2.2.2.2.2.2.1 frChannel2OpenLoad 4 1
     fault_status_e.SHORT_CIRCUIT_OVERCURRENT (by decide),
   C6_no_channel_aliasing.2.2.2.2.2.2.2 frChannel2OpenLoad 4
     fault_status_e.SHORT_CIRCUIT_OVERCURRENT⟩

/-- C7: each configuration type packs exactly 8 one-bit flags into one byte:
the packed byte is always below 256, the packing is injective (the flags are
recovered from the byte), and every byte value 0..255 arises from a legal
configuration — there is no illegal bit pattern. -/
theorem C7_byte_bijection :
    (∀ s : output_status_t, output_status_toByte s < 256 ∧
      output_status_fromByte (output_status_toByte s) = s) ∧
    (∀ b : Fin 256, output_status_toByte (output_status_fromByte b.val) = b.val) ∧
    (∀ s : diagnosis_mode_t, diagnosis_mode_toByte s < 256 ∧
      diagnosis_mode_fromByte (diagnosis_mode_toByte s) = s) ∧
    (∀ b : Fin 256, diagnosis_mode_toByte (diagnosis_mode_fromByte b.val) = b.val) ∧
    (∀ s : overcurrent_protection_t, overcurrent_protection_toByte s < 256 ∧
      overcurrent_protection_fromByte (overcurrent_protection_toByte s) = s) ∧
    (∀ b : Fin 256, overcurrent_protection_toByte (overcurrent_protection_fromByte b.val) = b.val) := by
  refine ⟨?_, ?_, ?_, ?_, ?_, ?_⟩ <;> decide

/-- C8: the three write prototypes return void — the interface has no return
code or error channel — and in the modelled behaviour every call completes,
surfacing the device's fault snapshot unchanged through the fault report, so
device-reported faults are delivered only there and never as a call failure. -/
theorem C8_no_failure_channel :
    writeOutputStatusConfiguration_decl.returnsVoid = true ∧
    writeDianosticModeConfiguration_decl.returnsVoid = true ∧
    writeOvercurrentProtectionConfiguration_decl.returnsVoid = true ∧
    (∀ (c : output_status_t) (d : fault_report_t),
      writeOutputStatusConfiguration c d = d) ∧
    (∀ (c : diagnosis_mode_t) (d : fault_report_t),
      writeDianosticModeConfiguration c d = d) ∧
    (∀ (c : overcurrent_protection_t) (d : fault_report_t),
      writeOvercurrentProtectionConfiguration c d = d) :=
  ⟨rfl, rfl, rfl, fun _ _ => rfl, fun _ _ => rfl, fun _ _ => rfl⟩

/-- C9: NO_FAULT_PRESENT is the first enumerator of fault_status_e, so its C
value is 0, it is the only enumerator with value 0, and a fault report whose
stored values are all zero is exactly the all-channels-no-fault report. -/
theorem C9_zero_is_no_fault :
    fault_status_value fault_status_e.NO_FAULT_PRESENT = 0 ∧
    (∀ e : fault_status_e,
      fault_status_value e = 0 ↔ e = fault_status_e.NO_FAULT_PRESENT) ∧
    (∀ r : fault_report_t,
      fault_report_rep r = List.replicate 8 0 ↔
        fault_report_entries r = List.replicate 8 fault_status_e.NO_FAULT_PRESENT) := by
  have hval : ∀ e : fault_status_e,
      fault_status_value e = 0 ↔ e = fault_status_e.NO_FAULT_PRESENT := by decide
  refine ⟨rfl, hval, fun r => ?_⟩
  obtain ⟨a1, a2, a3, a4, a5, a6, a7, a8⟩ := r
  simp [fault_report_rep, fault_report_entries, List.replicate, hval]

/-- C9 witness: the characterisation evaluated at concrete values — the
channel-2-open-load report is not all-zero, as its entries are not all
no-fault. -/
theorem C9_zero_is_no_fault_witness :
    fault_status_value fault_status_e.NO_FAULT_PRESENT = 0 ∧
    (fault_status_value fault_status_e.OPEN_LOAD = 0 ↔
      fault_status_e.OPEN_LOAD = fault_status_e.NO_FAULT_PRESENT) ∧
    (fault_report_rep frChannel2OpenLoad = List.replicate 8 0 ↔
      fault_report_entries frChannel2OpenLoad =
        List.replicate 8 fault_status_e.NO_FAULT_PRESENT) :=
  ⟨C9_zero_is_no_fault.1, C9_zero_is_no_fault.2.1 fault_status_e.OPEN_LOAD,
   C9_zero_is_no_fault.2.2 frChannel2OpenLoad⟩

/-- C10: the two byte-level macros are constant, hence idempotent, on each
bitfield type: clear after clear, set after set, set after clear and clear
after set all equal the single application. -/
theorem C10_clear_set_idempotent :
    (∀ s : output_status_t,
      CLEAR_BITFIELD_BYTE_output_status (CLEAR_BITFIELD_BYTE_output_status s) =
        CLEAR_BITFIELD_BYTE_output_status s ∧
      SET_BITFIELD_BYTE_output_status (SET_BITFIELD_BYTE_output_status s) =
        SET_BITFIELD_BYTE_output_status s ∧
      SET_BITFIELD_BYTE_output_status (CLEAR_BITFIELD_BYTE_output_status s) =
        SET_BITFIELD_BYTE_output_status s ∧
      CLEAR_BITFIELD_BYTE_output_status (SET_BITFIELD_BYTE_output_status s) =
        CLEAR_BITFIELD_BYTE_output_status s) ∧
    (∀ s : diagnosis_mode_t,
      CLEAR_BITFIELD_BYTE_diagnosis_mode (CLEAR_BITFIELD_BYTE_diagnosis_mode s) =
        CLEAR_BITFIELD_BYTE_diagnosis_mode s ∧
      SET_BITFIELD_BYTE_diagnosis_mode (SET_BITFIELD_BYTE_diagnosis_mode s) =
        SET_BITFIELD_BYTE_diagnosis_mode s ∧
      SET_BITFIELD_BYTE_diagnosis_mode (CLEAR_BITFIELD_BYTE_diagnosis_mode s) =
        SET_BITFIELD_BYTE_diagnosis_mode s ∧
      CLEAR_BITFIELD_BYTE_diagnosis_mode (SET_BITFIELD_BYTE_diagnosis_mode s) =
        CLEAR_BITFIELD_BYTE_diagnosis_mode s) ∧
    (∀ s : overcurrent_protection_t,
      CLEAR_BITFIELD_BYTE_overcurrent_protection
          (CLEAR_BITFIELD_BYTE_overcurrent_protection s) =
        CLEAR_BITFIELD_BYTE_overcurrent_protection s ∧
      SET_BITFIELD_BYTE_overcurrent_protection
          (SET_BITFIELD_BYTE_overcurrent_protection s) =
        SET_BITFIELD_BYTE_overcurrent_protection s ∧
      SET_BITFIELD_BYTE_overcurrent_protection
          (CLEAR_BITFIELD_BYTE_overcurrent_protection s) =
        SET_BITFIELD_BYTE_overcurrent_protection s ∧
      CLEAR_BITFIELD_BYTE_overcurrent_protection
          (SET_BITFIELD_BYTE_overcurrent_protection s) =
        CLEAR_BITFIELD_BYTE_overcurrent_protection s) :=
  ⟨fun _ => ⟨rfl, rfl, rfl, rfl⟩, fun _ => ⟨rfl, rfl, rfl, rfl⟩,
   fun _ => ⟨rfl, rfl, rfl, rfl⟩⟩
